import Mathlib

/-!
Verification of the plane-tracker session/domain model.

The definitions below are a shallow embedding of the TypeScript source:
  - entity records mirror the interfaces of `src/lib/supabase.ts`;
  - `computeStats` mirrors the statistics block of `fetchPlaneData` in
    `src/components/Dashboard/PlaneDetail.tsx` (lines 112-141);
  - the display helpers mirror `formatDuration`, `formatHobbs` and the
    rendering guards of `PlaneDetail.tsx`;
  - the filtering/export pipeline mirrors `filteredSessions`,
    `totalHours` and `exportToCSV` of `src/components/Dashboard/SessionView.tsx`;
  - the mutation helpers mirror `handleAssignDevice` (admin view),
    `handleUpdateDevice` and `handleDeleteDevice` (`DeviceList.tsx`).

Machine numbers are modelled as `Nat`: `run_seconds` is a non-negative
whole count of seconds in the store.  JS `Math.round(x)` for a
non-negative quotient `s / n` is `⌊s / n + 1 / 2⌋`, embedded as
`(2 * s + n) / (2 * n)` with Nat division.
-/

/-- Mirrors interface `Plane` of `src/lib/supabase.ts`. -/
structure Plane where
  id : String
  user_id : String
  tail_number : String
  model : Option String
  manufacturer : Option String
  created_at : String
  updated_at : String
deriving DecidableEq, Repr

/-- Mirrors interface `Device` of `src/lib/supabase.ts`; the optional
`plane` field is the joined record from `select('*, plane:planes(*)')`. -/
structure Device where
  device_uuid : String
  user_id : Option String
  plane_id : Option String
  name : Option String
  created_at : String
  updated_at : String
  last_seen : Option String
  plane : Option Plane
deriving DecidableEq, Repr

/-- Mirrors interface `Session` of `src/lib/supabase.ts`.  `status` is the
string union `'open' | 'closed'` kept as a `String`, exactly as the source
compares it (`s.status === 'open'`). -/
structure Session where
  id : String
  device_uuid : String
  session_start : String
  run_seconds : Nat
  last_update : Option String
  status : String
  msg_id : String
  created_at : String
  updated_at : String
deriving DecidableEq, Repr

/-- Mirrors interface `SessionStats` of `PlaneDetail.tsx`. -/
structure SessionStats where
  totalSessions : Nat
  totalFlightTime : Nat
  activeSessions : Nat
  averageFlightTime : Nat
  longestFlight : Nat
  shortestFlight : Nat
deriving DecidableEq, Repr

/-- Embeds `allSessions.filter(s => s.status === 'closed')` from `PlaneDetail.tsx`. -/
def closedSessions (l : List Session) : List Session :=
  l.filter (fun s => s.status == "closed")

/-- Sum of `run_seconds` over the closed sessions of a collection. -/
def closedRunSum (l : List Session) : Nat :=
  ((closedSessions l).map Session.run_seconds).sum

/-- Embeds `Math.max(...times)` over a list of naturals (the source only calls it
on a non-empty list). -/
def listMax (l : List Nat) : Nat := l.foldl max 0

/-- Embeds `Math.min(...times)` over a non-empty list of naturals; `0` on the
empty list, which the source never reaches (guarded by `length > 0`). -/
def listMin : List Nat → Nat
  | [] => 0
  | t :: ts => ts.foldl min t

/-- The statistics block of `fetchPlaneData` (`PlaneDetail.tsx` lines
112-141): totals over all sessions, open-session count, and
average/longest/shortest over closed sessions only, guarded by
`closedSessions.length > 0`.  `Math.round(sum / n)` is embedded as
`(2 * sum + n) / (2 * n)`. -/
def computeStats (allSessions : List Session) : SessionStats :=
  let totalSessions := allSessions.length
  let totalFlightTime := (allSessions.map Session.run_seconds).sum
  let activeSessions := (allSessions.filter (fun s => s.status == "open")).length
  let times := (closedSessions allSessions).map Session.run_seconds
  if 0 < times.length then
    { totalSessions := totalSessions
      totalFlightTime := totalFlightTime
      activeSessions := activeSessions
      averageFlightTime := (2 * times.sum + times.length) / (2 * times.length)
      longestFlight := listMax times
      shortestFlight := listMin times }
  else
    { totalSessions := totalSessions
      totalFlightTime := totalFlightTime
      activeSessions := activeSessions
      averageFlightTime := 0
      longestFlight := 0
      shortestFlight := 0 }

/-- Embeds `formatDuration` of `PlaneDetail.tsx`/`SessionView.tsx`:
`Math.floor(s / 3600)` hours and `Math.floor((s % 3600) / 60)` minutes as
the string `"Hh Mm"`. -/
def formatDuration (seconds : Nat) : String :=
  toString (seconds / 3600) ++ "h " ++ toString (seconds % 3600 / 60) ++ "m"

/-- The Average Flight card of `PlaneDetail.tsx` (line 371): renders
`formatDuration` only when the average is positive, else the literal
marker string. -/
def averageFlightDisplay (stats : SessionStats) : String :=
  if 0 < stats.averageFlightTime then formatDuration stats.averageFlightTime else "N/A"

/-- The Longest/Shortest Flight row of `PlaneDetail.tsx` (line 409): the
whole section is rendered only when `stats.longestFlight > 0`; `none`
means the cards are absent from the page. -/
def extremaSection (stats : SessionStats) : Option (String × String) :=
  if 0 < stats.longestFlight then
    some (formatDuration stats.longestFlight, formatDuration stats.shortestFlight)
  else none

/-- A closed session with the given duration, on device `dev-1`. -/
def mkClosed (runSeconds : Nat) : Session :=
  ⟨"sid-c", "dev-1", "2024-01-01T00:00:00Z", runSeconds, none, "closed", "m1", "2024-01-01", "2024-01-01"⟩

/-- An open session with the given accumulated duration, on device `dev-1`. -/
def mkOpen (runSeconds : Nat) : Session :=
  ⟨"sid-o", "dev-1", "2024-01-02T00:00:00Z", runSeconds, none, "open", "m2", "2024-01-02", "2024-01-02"⟩

/-- The worked example of the spec: two closed sessions of 3600 s and
7200 s and one open session at 1800 s. -/
def exampleSessions : List Session := [mkClosed 3600, mkClosed 7200, mkOpen 1800]

/-- Sum of `run_seconds` over all sessions splits into the closed part and
the non-closed part. -/
theorem sum_run_split (l : List Session) :
    (l.map Session.run_seconds).sum
      = closedRunSum l
        + ((l.filter (fun s => !(s.status == "closed"))).map Session.run_seconds).sum := by
  induction l with
  | nil => simp [closedRunSum, closedSessions]
  | cons s rest ih =>
    by_cases h : s.status = "closed" <;>
      simp [closedRunSum, closedSessions, List.filter_cons, h] at ih ⊢ <;> omega

/-- The three count/total fields of `computeStats` are the same in both
branches of the closed-session guard. -/
theorem computeStats_base (l : List Session) :
    (computeStats l).totalSessions = l.length ∧
    (computeStats l).totalFlightTime = (l.map Session.run_seconds).sum ∧
    (computeStats l).activeSessions
      = (l.filter (fun s => s.status == "open")).length := by
  by_cases h : 0 < (closedSessions l).length <;> simp [computeStats, h]

/-- Bounds characterising `(2*s + n) / (2*n)` as a nearest integer to
`s / n`: the JS `Math.round` of the mean. -/
theorem roundHalfBounds (s n : Nat) (hn : 0 < n) :
    2 * s ≤ 2 * n * ((2 * s + n) / (2 * n)) + n ∧
    2 * n * ((2 * s + n) / (2 * n)) ≤ 2 * s + n := by
  have hdm := Nat.div_add_mod (2 * s + n) (2 * n)
  have hml : (2 * s + n) % (2 * n) < 2 * n := Nat.mod_lt _ (by omega)
  generalize hA : 2 * n * ((2 * s + n) / (2 * n)) = A at hdm ⊢
  generalize hR : (2 * s + n) % (2 * n) = R at hdm hml
  omega

/-- C1.  The session aggregation: `totalSessions` counts all sessions,
`totalFlightTime` sums `run_seconds` over all sessions (open included),
`activeSessions` counts open sessions, and when closed sessions exist the
average is the mean of their `run_seconds` rounded to the nearest whole
second (the computed value `a` with `n` closed sessions summing to `s`
satisfies `2*s ≤ 2*n*a + n` and `2*n*a ≤ 2*s + n`).  The spec's worked
example `[{closed,3600}, {closed,7200}, {open,1800}]` yields
`⟨3, 12600, 1, 5400, 7200, 3600⟩`. -/
theorem c1_session_aggregation :
    (∀ l : List Session,
      (computeStats l).totalSessions = l.length ∧
      (computeStats l).totalFlightTime = (l.map Session.run_seconds).sum ∧
      (computeStats l).activeSessions
        = (l.filter (fun s => s.status == "open")).length ∧
      (0 < (closedSessions l).length →
        2 * closedRunSum l
            ≤ 2 * (closedSessions l).length * (computeStats l).averageFlightTime
                + (closedSessions l).length ∧
        2 * (closedSessions l).length * (computeStats l).averageFlightTime
            ≤ 2 * closedRunSum l + (closedSessions l).length)) ∧
    computeStats exampleSessions
      = { totalSessions := 3, totalFlightTime := 12600, activeSessions := 1,
          averageFlightTime := 5400, longestFlight := 7200, shortestFlight := 3600 } := by
  refine ⟨fun l => ?_, by decide⟩
  obtain ⟨ht, hf, hact⟩ := computeStats_base l
  refine ⟨ht, hf, hact, ?_⟩
  intro hpos
  have havg : (computeStats l).averageFlightTime
      = (2 * closedRunSum l + (closedSessions l).length)
          / (2 * (closedSessions l).length) := by
    simp [computeStats, hpos, closedRunSum]
  rw [havg]
  exact roundHalfBounds (closedRunSum l) (closedSessions l).length hpos

/-- C1 witness: the general statement instantiated at the worked example,
with the closed-session hypothesis discharged concretely. -/
theorem c1_session_aggregation_witness :
    2 * closedRunSum exampleSessions
        ≤ 2 * (closedSessions exampleSessions).length
            * (computeStats exampleSessions).averageFlightTime
          + (closedSessions exampleSessions).length ∧
    computeStats exampleSessions
      = { totalSessions := 3, totalFlightTime := 12600, activeSessions := 1,
          averageFlightTime := 5400, longestFlight := 7200, shortestFlight := 3600 } :=
  ⟨((c1_session_aggregation.1 exampleSessions).2.2.2 (by decide)).1,
    c1_session_aggregation.2⟩

/-- C2 counterexample: the collection `[{open, 0 s}]` has
`totalFlightTime` equal to the closed-session sum (both `0`) while a
session has status `open`, so equality does not imply that no session is
open. -/
theorem c2_open_zero_counterexample :
    (computeStats [mkOpen 0]).totalFlightTime = closedRunSum [mkOpen 0] ∧
    (computeStats [mkOpen 0]).activeSessions = 1 := by
  decide

/-- C2 (amended).  `totalFlightTime` is at least the sum of closed-session
`run_seconds`, and the two are equal exactly when every session that is
not closed has `run_seconds = 0`; in particular equality holds whenever no
session is open, but an open session with zero accumulated seconds also
leaves the totals equal. -/
theorem c2_total_vs_closed_sum (l : List Session) :
    closedRunSum l ≤ (computeStats l).totalFlightTime ∧
    ((computeStats l).totalFlightTime = closedRunSum l ↔
      ∀ s ∈ l, s.status ≠ "closed" → s.run_seconds = 0) := by
  have hf := (computeStats_base l).2.1
  have hsplit := sum_run_split l
  constructor
  · omega
  · rw [hf, hsplit]
    have hzero :
        ((l.filter (fun s => !(s.status == "closed"))).map Session.run_seconds).sum = 0 ↔
          ∀ s ∈ l, s.status ≠ "closed" → s.run_seconds = 0 := by
      rw [List.sum_eq_zero_iff]
      constructor
      · intro h s hs hne
        exact h s.run_seconds (List.mem_map_of_mem _
          (List.mem_filter.mpr ⟨hs, by simpa using hne⟩))
      · intro h x hx
        obtain ⟨s, hsmem, rfl⟩ := List.mem_map.mp hx
        obtain ⟨hsl, hstat⟩ := List.mem_filter.mp hsmem
        exact h s hsl (by simpa using hstat)
    rw [← hzero]
    omega

/-- C2 witness: the iff applied at a concrete collection with one open
zero-second session, with the right-hand side discharged by computation. -/
theorem c2_total_vs_closed_sum_witness :
    (computeStats [mkOpen 0]).totalFlightTime = closedRunSum [mkOpen 0] :=
  (c2_total_vs_closed_sum [mkOpen 0]).2.mpr (by decide)

/-- C3.  When a collection has no closed session, the aggregation still
computes (the guard avoids any division): average, longest and shortest
are the neutral `0`, the Average Flight card renders the explicit marker
`"N/A"` rather than a duration, and the Longest/Shortest cards are not
rendered at all — no zero-length flight is ever displayed. -/
theorem c3_no_closed_sessions (l : List Session)
    (h : closedSessions l = []) :
    (computeStats l).averageFlightTime = 0 ∧
    (computeStats l).longestFlight = 0 ∧
    (computeStats l).shortestFlight = 0 ∧
    averageFlightDisplay (computeStats l) = "N/A" ∧
    extremaSection (computeStats l) = none := by
  have hz : (closedSessions l).length = 0 := by rw [h]; rfl
  have havg : (computeStats l).averageFlightTime = 0 := by
    simp [computeStats, hz]
  have hlong : (computeStats l).longestFlight = 0 := by
    simp [computeStats, hz]
  have hshort : (computeStats l).shortestFlight = 0 := by
    simp [computeStats, hz]
  refine ⟨havg, hlong, hshort, ?_, ?_⟩
  · simp [averageFlightDisplay, havg]
  · simp [extremaSection, hlong]

/-- C3 witness: a collection with one open session only — no closed
sessions, so the stats carry the markers. -/
theorem c3_no_closed_sessions_witness :
    averageFlightDisplay (computeStats [mkOpen 1800]) = "N/A" ∧
    extremaSection (computeStats [mkOpen 1800]) = none :=
  ⟨(c3_no_closed_sessions [mkOpen 1800] (by decide)).2.2.2.1,
    (c3_no_closed_sessions [mkOpen 1800] (by decide)).2.2.2.2⟩

/-- JS `x || null` for a string form field: the empty string is falsy and
becomes `null`. -/
def jsOrNull (s : String) : Option String :=
  if s == "" then none else some s

/-- Embeds `handleAssignDevice` of the admin view: the update sent for the
selected device sets `user_id` and `name` from the form (empty fields
becoming `null`) and touches no other column — in particular `plane_id`
is left as it was. -/
def applyAssignDevice (d : Device) (userIdField nameField : String) : Device :=
  { d with user_id := jsOrNull userIdField, name := jsOrNull nameField }

/-- The §3 domain invariant: a device with no owning user cannot have a
plane reference. -/
def ownerPlaneInvariant (d : Device) : Prop :=
  d.user_id = none → d.plane_id = none

/-- An `Assigned`-state device: owned by `user-A` and referencing
`plane-1`. -/
def exAssignedDevice : Device :=
  ⟨"dev-1", some "user-A", some "plane-1", some "Main Tracker",
    "2024-01-01", "2024-01-01", none, none⟩

/-- C4.  The admin assignment operation with an empty user field clears
the owner but leaves the plane reference in place, producing a device
that is in `Assigned` state with a null owner: the transition does not
clear the plane reference as a side effect, and the invariant fails on
the reachable result. -/
theorem c4_clear_owner_keeps_plane :
    (applyAssignDevice exAssignedDevice "" "").user_id = none ∧
    (applyAssignDevice exAssignedDevice "" "").plane_id = some "plane-1" ∧
    ¬ ownerPlaneInvariant (applyAssignDevice exAssignedDevice "" "") := by
  exact ⟨rfl, rfl, fun h => absurd (h rfl) (by decide)⟩

/-- Embeds `handleUpdateDevice` of `DeviceList.tsx` (the `device_uuid`-keyed
variant, lines 472-497): the update sent for the selected device sets
`name` and `plane_id` from the form unconditionally; there is no
comparison of the plane's owner with the device's owner and no error
path of its own, so the function is total on the device. -/
def applyUpdateDevice (d : Device) (nameField planeIdField : String) : Device :=
  { d with name := jsOrNull nameField, plane_id := jsOrNull planeIdField }

/-- A device owned by `user-B` with no plane assigned. -/
def exDeviceOfB : Device :=
  ⟨"dev-2", some "user-B", none, none, "2024-01-01", "2024-01-01", none, none⟩

/-- A plane owned by `user-A`. -/
def exPlaneOfA : Plane :=
  ⟨"plane-A", "user-A", "N12345", none, none, "2024-01-01", "2024-01-01"⟩

/-- C5.  Assigning `user-A`'s plane to `user-B`'s device goes through:
the owners differ, yet the update is applied and the device's plane
reference now points at the cross-owner plane — the device state
changes and no `OwnershipMismatch` is signalled (the operation has no
error outcome at all). -/
theorem c5_cross_owner_assignment_applied :
    exPlaneOfA.user_id = "user-A" ∧
    exDeviceOfB.user_id = some "user-B" ∧
    some exPlaneOfA.user_id ≠ exDeviceOfB.user_id ∧
    (applyUpdateDevice exDeviceOfB "" exPlaneOfA.id).plane_id = some exPlaneOfA.id ∧
    applyUpdateDevice exDeviceOfB "" exPlaneOfA.id ≠ exDeviceOfB := by
  refine ⟨rfl, rfl, by decide, rfl, by decide⟩

/-- Device rows of the plane-detail listing, mirroring interface
`DeviceWithStats` of `PlaneDetail.tsx`. -/
structure DeviceWithStats where
  device : Device
  sessionCount : Nat
  totalFlightTime : Nat
deriving DecidableEq, Repr

/-- The per-device body of the `Promise.all` map in `fetchPlaneData`
(`PlaneDetail.tsx` lines 78-95): the query's error is discarded by the
destructuring `const { data: sessionData } = ...`; on failure `data` is
null, so `sessionData?.length || 0` and the reduce default the stats to
zero. -/
def fetchDeviceStats (fetchRuns : String → Except String (List Nat))
    (d : Device) : DeviceWithStats :=
  match fetchRuns d.device_uuid with
  | .ok runs => ⟨d, runs.length, runs.sum⟩
  | .error _ => ⟨d, 0, 0⟩

/-- The whole device listing: one `fetchDeviceStats` per device. -/
def devicesWithStats (fetchRuns : String → Except String (List Nat))
    (devices : List Device) : List DeviceWithStats :=
  devices.map (fetchDeviceStats fetchRuns)

/-- C9 counterexample: the listing computed when every stat fetch fails
is identical to the listing computed when every fetch succeeds with no
sessions — the failure produces no observable report in the result, so
it is silently swallowed rather than reported to the caller. -/
theorem c9_failure_indistinguishable :
    devicesWithStats (fun _ => .error "gateway failure") [exDeviceOfB]
      = devicesWithStats (fun _ => .ok []) [exDeviceOfB] ∧
    (devicesWithStats (fun _ => .error "gateway failure") [exDeviceOfB]).length = 1 := by
  decide

/-- C9 (amended).  A failing per-device stat fetch does not abort the
listing — the result still has one row per device — and the affected
device's stats default to zero; but the failure is silently discarded,
nothing in the result type carries it. -/
theorem c9_partial_failure (devices : List Device)
    (fetchRuns : String → Except String (List Nat)) :
    (devicesWithStats fetchRuns devices).length = devices.length ∧
    (∀ d ∈ devices, ∀ e, fetchRuns d.device_uuid = .error e →
      fetchDeviceStats fetchRuns d = ⟨d, 0, 0⟩ ∧
      (⟨d, 0, 0⟩ : DeviceWithStats) ∈ devicesWithStats fetchRuns devices) := by
  refine ⟨by simp [devicesWithStats], ?_⟩
  intro d hd e he
  have hz : fetchDeviceStats fetchRuns d = ⟨d, 0, 0⟩ := by
    unfold fetchDeviceStats
    rw [he]
  exact ⟨hz, by
    rw [← hz]
    exact List.mem_map_of_mem _ hd⟩

/-- C9 witness: the amended statement at a one-device listing whose
fetch always fails. -/
theorem c9_partial_failure_witness :
    fetchDeviceStats (fun _ => .error "boom") exDeviceOfB
      = ⟨exDeviceOfB, 0, 0⟩ :=
  ((c9_partial_failure [exDeviceOfB] (fun _ => .error "boom")).2
    exDeviceOfB (by decide) "boom" rfl).1

/-- The three tables visible to the client, as one record. -/
structure Store where
  planes : List Plane
  devices : List Device
  sessions : List Session
deriving DecidableEq, Repr

/-- Embeds `handleDeleteDevice` of `DeviceList.tsx` (lines 499-518):
`from('devices').delete().eq('device_uuid', uuid)` removes exactly the
device rows whose `device_uuid` matches; no other table is touched. -/
def deleteDeviceByUuid (st : Store) (uuid : String) : Store :=
  { st with devices := st.devices.filter (fun d => !(d.device_uuid == uuid)) }

/-- C10.  Deleting a device by token leaves the sessions table and the
planes table unchanged, and a device remains in the devices table
exactly when it was there before and its token differs from the deleted
one. -/
theorem c10_delete_device_frame (st : Store) (uuid : String) :
    (deleteDeviceByUuid st uuid).sessions = st.sessions ∧
    (deleteDeviceByUuid st uuid).planes = st.planes ∧
    (∀ d : Device, d ∈ (deleteDeviceByUuid st uuid).devices ↔
      d ∈ st.devices ∧ d.device_uuid ≠ uuid) := by
  refine ⟨rfl, rfl, fun d => ?_⟩
  simp [deleteDeviceByUuid, List.mem_filter]

/-- C10 witness: deleting `dev-1` from a concrete two-device store keeps
the other device and all sessions. -/
theorem c10_delete_device_frame_witness :
    (deleteDeviceByUuid
        ⟨[exPlaneOfA], [exAssignedDevice, exDeviceOfB], [mkClosed 3600]⟩
        "dev-1").sessions = [mkClosed 3600] ∧
    exDeviceOfB ∈ (deleteDeviceByUuid
        ⟨[exPlaneOfA], [exAssignedDevice, exDeviceOfB], [mkClosed 3600]⟩
        "dev-1").devices :=
  ⟨(c10_delete_device_frame
      ⟨[exPlaneOfA], [exAssignedDevice, exDeviceOfB], [mkClosed 3600]⟩ "dev-1").1,
    ((c10_delete_device_frame
      ⟨[exPlaneOfA], [exAssignedDevice, exDeviceOfB], [mkClosed 3600]⟩ "dev-1").2.2
      exDeviceOfB).mpr ⟨by decide, by decide⟩⟩

/-- Mirrors interface `SessionWithDevice` of `SessionView.tsx`: a session
merged with its (possibly missing) device record. -/
structure SessionWithDevice extends Session where
  device : Option Device
deriving DecidableEq, Repr

/-- The filter predicate of `SessionView.tsx` (lines 64-69): a falsy
(empty) filter matches everything; otherwise the session's device token
resp. status must equal the filter value. -/
def matchesFilter (filterDevice filterStatus : String)
    (s : SessionWithDevice) : Bool :=
  (filterDevice == "" || s.device_uuid == filterDevice) &&
  (filterStatus == "" || s.status == filterStatus)

/-- Embeds `filteredSessions` of `SessionView.tsx`. -/
def filteredSessions (sessions : List SessionWithDevice)
    (filterDevice filterStatus : String) : List SessionWithDevice :=
  sessions.filter (matchesFilter filterDevice filterStatus)

/-- Sum of `run_seconds` over a merged session list (the numerator of
`totalHours` in `SessionView.tsx` line 72). -/
def sumRunSWD (l : List SessionWithDevice) : Nat :=
  (l.map (fun s => s.run_seconds)).sum

/-- JS `x || y` for a nullable string `x`: `null`/`undefined` and the
empty string are falsy. -/
def jsOr (a : Option String) (b : String) : String :=
  match a with
  | some s => if s == "" then b else s
  | none => b

/-- Embeds `session.device?.name || session.device_uuid` (CSV Device column). -/
def deviceCell (s : SessionWithDevice) : String :=
  jsOr (s.device.bind Device.name) s.device_uuid

/-- Embeds `session.device?.plane?.tail_number || 'N/A'` (CSV Plane column). -/
def planeCell (s : SessionWithDevice) : String :=
  jsOr (s.device.bind (fun d => d.plane.map Plane.tail_number)) "N/A"

/-- Embeds `session.last_update || 'N/A'` (CSV Last Update column). -/
def lastUpdateCell (s : SessionWithDevice) : String :=
  jsOr s.last_update "N/A"

/-- One row of the `rows` array built by `exportToCSV`
(`SessionView.tsx` lines 84-91). -/
def sessionCells (s : SessionWithDevice) : List String :=
  [s.session_start, deviceCell s, planeCell s,
    formatDuration s.run_seconds, s.status, lastUpdateCell s]

/-- The `headers` array of `exportToCSV` (line 83). -/
def csvHeaders : List String :=
  ["Session Start", "Device", "Plane", "Duration", "Status", "Last Update"]

/-- Embeds `Array.prototype.join(sep)` on character lists: the parts interleaved
with the separator. -/
def joinSep (c : Char) : List (List Char) → List Char
  | [] => []
  | [p] => p
  | p :: ps => p ++ c :: joinSep c ps

/-- Embeds `parts.join(c)` at the `String` level. -/
def joinWith (c : Char) (parts : List String) : String :=
  ⟨joinSep c (parts.map String.data)⟩

/-- The quoting template of line 95: the cell wrapped in double
quotes, with no escaping of the cell contents. -/
def quoteCell (cell : String) : String :=
  ⟨'"' :: cell.data ++ ['"']⟩

/-- Embeds the expression of line 95: map the row to quoted cells and join with commas. -/
def rowString (cells : List String) : String :=
  joinWith ',' (cells.map quoteCell)

/-- Embeds `headers.join(',')` of line 94 — note: header fields are NOT quoted. -/
def headerLine : String := joinWith ',' csvHeaders

/-- The line list of the produced CSV document: the header line followed
by one quoted row per filtered session. -/
def exportLines (filtered : List SessionWithDevice) : List String :=
  headerLine :: filtered.map (fun s => rowString (sessionCells s))

/-- Embeds `exportToCSV` of `SessionView.tsx` (lines 82-105): the export maps
over `filteredSessions` (the filter is applied before the export) and
joins the lines with a newline. -/
def exportToCSV (sessions : List SessionWithDevice)
    (filterDevice filterStatus : String) : String :=
  joinWith '\n' (exportLines (filteredSessions sessions filterDevice filterStatus))

/-- Split a character list at every occurrence of the separator — the
re-parsing step for a delimited file. -/
def splitSep (c : Char) : List Char → List (List Char)
  | [] => [[]]
  | x :: xs =>
    if x = c then [] :: splitSep c xs
    else
      match splitSep c xs with
      | [] => [[x]]
      | p :: ps => (x :: p) :: ps

/-- Un-quoting: strip one leading and one trailing double quote when both
are present, otherwise leave the text as it is. -/
def unquoteChars : List Char → List Char
  | '"' :: rest => if rest.getLast? = some '"' then rest.dropLast else '"' :: rest
  | l => l

/-- Lifts `unquoteChars` to the `String` level. -/
def unquoteStr (s : String) : String := ⟨unquoteChars s.data⟩

/-- Re-parse one CSV line: split at commas and un-quote every field. -/
def parseLine (s : String) : List String :=
  (splitSep ',' s.data).map (fun cs => unquoteStr ⟨cs⟩)

/-- Re-parse a CSV document: split at newlines, then parse each line. -/
def parseCSV (doc : String) : List (List String) :=
  (splitSep '\n' doc.data).map (fun cs => parseLine ⟨cs⟩)

/-- Rendering the Hobbs centihour counter: `(seconds / 3600).toFixed(2)`
rounds to the nearest hundredth of an hour, i.e. to the nearest multiple
of 36 s; `(seconds + 18) / 36` is that count of centihours (half-up). -/
def hobbsCentis (seconds : Nat) : Nat := (seconds + 18) / 36

/-- Two fixed fraction digits, as `toFixed(2)` prints them. -/
def pad2 (n : Nat) : String :=
  if n < 10 then "0" ++ toString n else toString n

/-- Embeds `formatHobbs` of `PlaneDetail.tsx` (lines 159-163):
`(seconds / 3600).toFixed(2)` — two decimal places. -/
def formatHobbs (seconds : Nat) : String :=
  toString (hobbsCentis seconds / 100) ++ "." ++ pad2 (hobbsCentis seconds % 100)

/-- The decihour count shown by `SessionView.tsx`:
`totalHours.toFixed(1)` rounds `sum / 3600` to the nearest tenth of an
hour, i.e. to the nearest multiple of 360 s. -/
def totalHoursDecis (l : List SessionWithDevice) : Nat :=
  (sumRunSWD l + 180) / 360

/-- The Total Flight Hours card of `SessionView.tsx` (line 159):
`totalHours.toFixed(1)` — a single decimal place. -/
def totalHoursDisplay (l : List SessionWithDevice) : String :=
  toString (totalHoursDecis l / 10) ++ "." ++ toString (totalHoursDecis l % 10)

/-- A device of `user-A` joined with its plane record. -/
def exDeviceJoined : Device :=
  ⟨"dev-1", some "user-A", some "plane-A", some "Main Tracker",
    "2024-01-01", "2024-01-01", none, some exPlaneOfA⟩

/-- A clean merged session: one closed hour on `exDeviceJoined`. -/
def exSWD : SessionWithDevice := ⟨mkClosed 3600, some exDeviceJoined⟩

/-- A device whose display name contains a comma. -/
def commaDevice : Device :=
  ⟨"dev-3", some "user-B", none, some "Tracker, main",
    "2024-01-01", "2024-01-01", none, none⟩

/-- A merged session whose Device column will contain a comma. -/
def cexSWD : SessionWithDevice := ⟨mkClosed 3600, some commaDevice⟩

/-- A list with no separator splits into a single part. -/
theorem splitSep_no_sep (c : Char) (l : List Char) (h : c ∉ l) :
    splitSep c l = [l] := by
  induction l with
  | nil => rfl
  | cons x xs ih =>
    have hxc : x ≠ c := fun he => h (he ▸ List.mem_cons_self x xs)
    have hxs : c ∉ xs := fun hm => h (List.mem_cons_of_mem _ hm)
    simp only [splitSep, if_neg hxc, ih hxs]

/-- Splitting after a separator-free part peels that part off. -/
theorem splitSep_append (c : Char) (p rest : List Char) (h : c ∉ p) :
    splitSep c (p ++ c :: rest) = p :: splitSep c rest := by
  induction p with
  | nil => simp [splitSep]
  | cons x xs ih =>
    have hxc : x ≠ c := fun he => h (he ▸ List.mem_cons_self x xs)
    have hxs : c ∉ xs := fun hm => h (List.mem_cons_of_mem _ hm)
    simp only [List.cons_append, splitSep, if_neg hxc]
    rw [show xs.append (c :: rest) = xs ++ c :: rest from rfl, ih hxs]

/-- Splitting inverts joining as long as no part contains the
separator. -/
theorem splitSep_joinSep (c : Char) :
    ∀ ps : List (List Char), ps ≠ [] → (∀ p ∈ ps, c ∉ p) →
      splitSep c (joinSep c ps) = ps
  | [], hne, _ => absurd rfl hne
  | [p], _, h => by
    simp only [joinSep]
    exact splitSep_no_sep c p (h p (by simp))
  | p :: q :: qs, _, h => by
    have h1 : c ∉ p := h p (by simp)
    have h2 : ∀ r ∈ q :: qs, c ∉ r := fun r hr => h r (List.mem_cons_of_mem _ hr)
    simp only [joinSep]
    rw [splitSep_append c p _ h1, splitSep_joinSep c (q :: qs) (by simp) h2]

/-- A character of a joined list is the separator or comes from one of
the parts. -/
theorem mem_joinSep {x c : Char} :
    ∀ {ps : List (List Char)}, x ∈ joinSep c ps → x = c ∨ ∃ p ∈ ps, x ∈ p
  | [], h => by simp [joinSep] at h
  | [p], h => by
    simp only [joinSep] at h
    exact Or.inr ⟨p, by simp, h⟩
  | p :: q :: qs, h => by
    simp only [joinSep, List.mem_append, List.mem_cons] at h
    rcases h with hp | hc | hrest
    · exact Or.inr ⟨p, by simp, hp⟩
    · exact Or.inl hc
    · rcases mem_joinSep hrest with hc | ⟨r, hr, hxr⟩
      · exact Or.inl hc
      · exact Or.inr ⟨r, List.mem_cons_of_mem _ hr, hxr⟩

/-- Un-quoting inverts quoting, for every cell text. -/
theorem unquote_quote (s : String) : unquoteStr (quoteCell s) = s := by
  cases s with
  | mk d =>
    show unquoteStr ⟨'"' :: d ++ ['"']⟩ = ⟨d⟩
    simp [unquoteStr, unquoteChars, List.getLast?_concat, List.dropLast_concat]

/-- Re-parsing one produced row recovers its cells, as long as no cell
contains a comma (the export does not escape separators). -/
theorem parseLine_rowString (cells : List String) (hne : cells ≠ [])
    (h : ∀ cell ∈ cells, ',' ∉ cell.data) :
    parseLine (rowString cells) = cells := by
  unfold parseLine rowString joinWith
  have hq : ∀ q ∈ (cells.map quoteCell).map String.data, ',' ∉ q := by
    intro q hqm
    simp only [List.map_map, List.mem_map, Function.comp] at hqm
    obtain ⟨cell, hc, rfl⟩ := hqm
    intro hmem
    have hmem' : (',' : Char) ∈ ('"' :: cell.data ++ ['"']) := hmem
    rcases List.mem_cons.mp hmem' with heq | hrest
    · exact absurd heq (by decide)
    · rcases List.mem_append.mp hrest with hin | hquote
      · exact h cell hc hin
      · exact absurd (List.mem_singleton.mp hquote) (by decide)
  have hmapne : (cells.map quoteCell).map String.data ≠ [] := by
    simp [hne]
  rw [show ((⟨joinSep ',' ((cells.map quoteCell).map String.data)⟩ : String)).data
        = joinSep ',' ((cells.map quoteCell).map String.data) from rfl]
  rw [splitSep_joinSep ',' _ hmapne hq]
  rw [List.map_map, List.map_map]
  conv_rhs => rw [← List.map_id cells]
  apply List.map_congr_left
  intro cell _
  show unquoteStr ⟨(quoteCell cell).data⟩ = cell
  exact unquote_quote cell

/-- A produced row contains no newline when none of its cells does. -/
theorem no_newline_in_row (cells : List String)
    (h : ∀ cell ∈ cells, '\n' ∉ cell.data) :
    '\n' ∉ (rowString cells).data := by
  intro hmem
  have hmem' : ('\n' : Char) ∈ joinSep ',' ((cells.map quoteCell).map String.data) :=
    hmem
  rcases mem_joinSep hmem' with heq | ⟨q, hq, hnq⟩
  · exact absurd heq (by decide)
  · simp only [List.map_map, List.mem_map, Function.comp] at hq
    obtain ⟨cell, hc, rfl⟩ := hq
    have hin : ('\n' : Char) ∈ ('"' :: cell.data ++ ['"']) := hnq
    rcases List.mem_cons.mp hin with he | hrest
    · exact absurd he (by decide)
    · rcases List.mem_append.mp hrest with hcd | hsing
      · exact h cell hc hcd
      · exact absurd (List.mem_singleton.mp hsing) (by decide)

/-- Re-parsing a produced document recovers the header fields and the
cells of every exported row, when no cell contains a comma or a
newline. -/
theorem parseCSV_export (filtered : List SessionWithDevice)
    (hclean : ∀ s ∈ filtered, ∀ cell ∈ sessionCells s,
      ',' ∉ cell.data ∧ '\n' ∉ cell.data) :
    parseCSV (joinWith '\n' (exportLines filtered))
      = csvHeaders :: filtered.map sessionCells := by
  unfold parseCSV joinWith
  have hlines_ne : (exportLines filtered).map String.data ≠ [] := by
    simp [exportLines]
  have hnl : ∀ ld ∈ (exportLines filtered).map String.data, '\n' ∉ ld := by
    intro ld hld
    simp only [exportLines, List.map_cons, List.mem_cons, List.mem_map] at hld
    rcases hld with rfl | ⟨line, hline, rfl⟩
    · decide
    · obtain ⟨s, hs, rfl⟩ := hline
      exact no_newline_in_row (sessionCells s)
        (fun cell hc => (hclean s hs cell hc).2)
  rw [show ((⟨joinSep '\n' ((exportLines filtered).map String.data)⟩ : String)).data
        = joinSep '\n' ((exportLines filtered).map String.data) from rfl]
  rw [splitSep_joinSep '\n' _ hlines_ne hnl, List.map_map]
  have hmap : (exportLines filtered).map
        ((fun cs => parseLine ⟨cs⟩) ∘ String.data)
      = (exportLines filtered).map parseLine := by
    apply List.map_congr_left
    intro line _
    rfl
  rw [hmap]
  simp only [exportLines, List.map_cons, List.map_map]
  rw [show parseLine headerLine = csvHeaders from by decide]
  congr 1
  apply List.map_congr_left
  intro s hs
  show parseLine (rowString (sessionCells s)) = sessionCells s
  exact parseLine_rowString (sessionCells s) (by simp [sessionCells])
    (fun cell hc => (hclean s hs cell hc).1)

/-- C6 counterexample: a session whose device name contains a comma.  The
export does not escape embedded commas, so the comma shifts the fields
of the re-parsed row and the duration slot (index 3) comes back as
`"N/A"` instead of the exported duration `"1h 0m"`. -/
theorem c6_comma_counterexample :
    commaDevice.name = some "Tracker, main" ∧
    ((parseCSV (exportToCSV [cexSWD] "" "")).get? 1).bind (fun r => r.get? 3)
      = some "N/A" ∧
    formatDuration cexSWD.run_seconds = "1h 0m" ∧
    ((parseCSV (exportToCSV [cexSWD] "" "")).get? 1).bind (fun r => r.get? 3)
      ≠ some (formatDuration cexSWD.run_seconds) := by
  decide

/-- C6 (amended).  Provided no exported cell contains a comma or a
newline (the export does not escape embedded separators), re-parsing the
produced document yields exactly the header fields followed by the cells
of each filtered session; hence the row count is the filtered session
count plus one.  The filter is applied before aggregation and export: a
session is exported exactly when it is in scope and matches the filter,
and row `i + 1` of the re-parsed document is the cell list of filtered
session `i`, whose duration slot is its formatted `run_seconds`. -/
theorem c6_filtered_export (sessions : List SessionWithDevice) (fd fs : String)
    (hclean : ∀ s ∈ filteredSessions sessions fd fs,
      ∀ cell ∈ sessionCells s, ',' ∉ cell.data ∧ '\n' ∉ cell.data) :
    parseCSV (exportToCSV sessions fd fs)
      = csvHeaders :: (filteredSessions sessions fd fs).map sessionCells ∧
    (parseCSV (exportToCSV sessions fd fs)).length
      = (filteredSessions sessions fd fs).length + 1 ∧
    (∀ s, s ∈ filteredSessions sessions fd fs ↔
      s ∈ sessions ∧ matchesFilter fd fs s = true) ∧
    (∀ i s, (filteredSessions sessions fd fs).get? i = some s →
      (parseCSV (exportToCSV sessions fd fs)).get? (i + 1)
        = some (sessionCells s) ∧
      (sessionCells s).get? 3 = some (formatDuration s.run_seconds)) := by
  have hmain : parseCSV (exportToCSV sessions fd fs)
      = csvHeaders :: (filteredSessions sessions fd fs).map sessionCells :=
    parseCSV_export (filteredSessions sessions fd fs) hclean
  refine ⟨hmain, ?_, ?_, ?_⟩
  · rw [hmain]; simp
  · intro s
    simp [filteredSessions, List.mem_filter]
  · intro i s hi
    refine ⟨?_, rfl⟩
    rw [hmain]
    rw [List.get?_cons_succ, List.get?_map, hi]
    rfl

/-- C6 witness: one clean session, no filters — re-parsing the export
recovers the header and the session's cells. -/
theorem c6_filtered_export_witness :
    parseCSV (exportToCSV [exSWD] "" "")
      = csvHeaders :: (filteredSessions [exSWD] "" "").map sessionCells :=
  (c6_filtered_export [exSWD] "" "" (by decide)).1

/-- C7 counterexample: the header row of a produced document is the
unquoted `headers.join(',')` — it has no spaces after the commas and its
fields carry no double quotes (its first character is `S`), so not every
field of the document is double-quoted. -/
theorem c7_header_not_quoted :
    (exportLines [exSWD]).head? = some headerLine ∧
    headerLine = "Session Start,Device,Plane,Duration,Status,Last Update" ∧
    headerLine ≠ "Session Start, Device, Plane, Duration, Status, Last Update" ∧
    headerLine.data.head? = some 'S' ∧ ('S' : Char) ≠ '"' := by
  decide

/-- C7 (amended).  Every produced document consists of the fixed header
line `Session Start,Device,Plane,Duration,Status,Last Update` — comma
separated but NOT quoted — followed by one row per in-scope session,
comma-separated with every data field double-quoted (each quoted field
begins and ends with `"`). -/
theorem c7_csv_format (filtered : List SessionWithDevice) :
    exportLines filtered
      = headerLine :: filtered.map (fun s => rowString (sessionCells s)) ∧
    headerLine = "Session Start,Device,Plane,Duration,Status,Last Update" ∧
    (∀ s : SessionWithDevice,
      rowString (sessionCells s) = joinWith ',' ((sessionCells s).map quoteCell)) ∧
    (∀ cell : String, (quoteCell cell).data.head? = some '"' ∧
      (quoteCell cell).data.getLast? = some '"') := by
  refine ⟨rfl, by decide, fun s => rfl, fun cell => ⟨rfl, ?_⟩⟩
  show ('"' :: cell.data ++ ['"']).getLast? = some '"'
  exact List.getLast?_concat ('"' :: cell.data)

/-- C8 counterexample: the Total Flight Hours card of the session view
renders one decimal place, not two — for a single one-hour session it
shows `1.0`, while the two-decimal Hobbs rendering of the same duration
is `1.00`. -/
theorem c8_session_totals_one_decimal :
    totalHoursDisplay [exSWD] = "1.0" ∧
    formatHobbs 3600 = "1.00" ∧
    totalHoursDisplay [exSWD] ≠ formatHobbs 3600 := by
  decide

/-- C8 (amended).  `formatHobbs` renders `seconds / 3600` with exactly
two fraction digits, the rendered centihour count being a nearest
integer to `seconds / 36`; the session view's total-hours card instead
renders one fraction digit, its decihour count being a nearest integer
to `sum / 360`. -/
theorem c8_hobbs_two_decimals (seconds : Nat) (l : List SessionWithDevice) :
    (∃ a b, b < 100 ∧ formatHobbs seconds = toString a ++ "." ++ pad2 b ∧
      36 * (100 * a + b) ≤ seconds + 18 ∧ seconds ≤ 36 * (100 * a + b) + 18) ∧
    (∃ a b, b < 10 ∧ totalHoursDisplay l = toString a ++ "." ++ toString b ∧
      360 * (10 * a + b) ≤ sumRunSWD l + 180 ∧
      sumRunSWD l ≤ 360 * (10 * a + b) + 180) := by
  constructor
  · refine ⟨hobbsCentis seconds / 100, hobbsCentis seconds % 100, ?_, rfl, ?_, ?_⟩
    · omega
    · unfold hobbsCentis; omega
    · unfold hobbsCentis; omega
  · refine ⟨totalHoursDecis l / 10, totalHoursDecis l % 10, ?_, rfl, ?_, ?_⟩
    · omega
    · unfold totalHoursDecis; omega
    · unfold totalHoursDecis; omega
